import Mathlib

/-!
Verification development for the HiOSDS-TechSuitabilityAnalysis input-preparation
pipeline (src/prepare_input_layers.py and src/download_input_layers.py).

The Python code is shallowly embedded: pure path manipulation becomes pure string
functions; filesystem and GIS-engine effects become explicit state passing over a
record holding the set of on-disk files, the CRS metadata the engine reports, and
an append-only trace of engine operations; fallible code returns an Except value
together with the state at the moment the exception propagates (Python exceptions
leave prior disk mutations in place).  The unreliable network consumed by the
download module is an oracle parameter giving the outcome of each attempt.
-/

/-- Python exception classes raised by the embedded code. -/
inductive PyError where
  | typeError (msg : String)
  | valueError (msg : String)
  | fileNotFoundError (msg : String)
  | runtimeError (msg : String)
  | keyError (key : String)
deriving DecidableEq, Repr

namespace Prep

/-- Split a (reversed) character list at the first occurrence of c.
Applied to the reverse of a string, it splits at the LAST occurrence in the
original string: returns (chars after c, chars before c), both still reversed. -/
def revSplitFirst (c : Char) : List Char → Option (List Char × List Char)
  | [] => none
  | x :: xs =>
    if x = c then some ([], xs)
    else
      match revSplitFirst c xs with
      | none => none
      | some (a, b) => some (x :: a, b)

/-- pathlib Path.name: the component after the last slash (the whole string if none). -/
def pathName (s : String) : String :=
  match revSplitFirst '/' s.data.reverse with
  | none => s
  | some (rname, _) => ⟨rname.reverse⟩

/-- pathlib Path.with_suffix USED WITH AN EMPTY SUFFIX: drop the last extension of the
final path component.  No change when the final component has no dot, or when its only
dot is at position 0 (hidden-file rule: Path of a/.hidden has an empty suffix). -/
def dropLastExt (s : String) : String :=
  match revSplitFirst '.' s.data.reverse with
  | none => s
  | some (rext, rrest) =>
    if rext.contains '/' then s
    else
      match rrest with
      | [] => s
      | c :: _ => if c = '/' then s else ⟨rrest.reverse⟩

/-- src/prepare_input_layers.py lines 50-59 (raster_subfolder_path):
p.with_suffix(empty) / p.name, e.g. prepared/dem.tif -> prepared/dem/dem.tif. -/
def raster_subfolder_path (prepared_tif_path : String) : String :=
  dropLastExt prepared_tif_path ++ "/" ++ pathName prepared_tif_path

/-- src/prepare_input_layers.py line 39: the four raster layer keys. -/
def RASTER_KEYS : List String := ["dem", "watertable", "rainfall", "slope"]

/-- pathlib parent-directory string: the part before the last slash (empty if none). -/
def dirOf (s : String) : String :=
  match revSplitFirst '/' s.data.reverse with
  | none => ""
  | some (_, rdir) => ⟨rdir.reverse⟩

/-- GIS-engine verbs invoked by the preparation module (arcpy call surface). -/
inductive ArcOp where
  | createSQLiteDatabase (path : String)
  | createFileGDB (dir name : String)
  | deleteDataset (path : String)
  | projectVector (src dst : String) (epsg : Nat)
  | fcToFc (src gpkg layer : String)
  | mosaicToNewRaster (tiles : List String) (out : String)
  | copyRaster (src dst : String)
  | projectRaster (src dst : String) (epsg : Nat) (resampling : String)
  | defineProjection (path : String) (epsg : Nat)
deriving DecidableEq, Repr

/-- State threaded through the preparation module: the set of existing dataset
paths, the EPSG code the engine reports per dataset (absent = no readable CRS),
and the append-only trace of engine operations performed so far. -/
structure GisState where
  fs : List String
  crs : List (String × Nat)
  ops : List ArcOp
deriving DecidableEq, Repr

def fsContains (fs : List String) (p : String) : Bool := fs.contains p

def fsAdd (fs : List String) (p : String) : List String :=
  if fsContains fs p then fs else fs ++ [p]

def fsRemove (fs : List String) (p : String) : List String :=
  fs.filter (fun q => q ≠ p)

def crsLookup : List (String × Nat) → String → Option Nat
  | [], _ => none
  | (q, e) :: rest, p => if q = p then some e else crsLookup rest p

def crsSet (m : List (String × Nat)) (p : String) (e : Nat) : List (String × Nat) :=
  (p, e) :: m.filter (fun q => q.1 ≠ p)

def GisState.addOp (st : GisState) (o : ArcOp) : GisState :=
  { st with ops := st.ops ++ [o] }

/-- src/prepare_input_layers.py lines 42-43 (path_exists). -/
def path_exists (st : GisState) (p : String) : Bool := fsContains st.fs p

/-- src/prepare_input_layers.py lines 68-72 (prepared_exists): a raster key is
checked at its subfolder-wrapped path, every other key at the path itself. -/
def prepared_exists (key : String) (path : String) (fs : List String) : Bool :=
  if RASTER_KEYS.contains key then fsContains fs (raster_subfolder_path path)
  else fsContains fs path

/-- src/prepare_input_layers.py lines 79-84 (epsg_of_dataset): the EPSG code the
engine reports for a dataset, or none when no readable CRS is present. -/
def epsg_of_dataset (st : GisState) (dataset : String) : Option Nat :=
  crsLookup st.crs dataset

/-- src/prepare_input_layers.py lines 87-88 (gpkg_layer_path). -/
def gpkg_layer_path (gpkg_path layer_name : String) : String :=
  gpkg_path ++ "/" ++ layer_name

/-- src/prepare_input_layers.py lines 96-108 (ensure_scratch_gdb): create the
scratch FileGDB below temp_dir unless the engine already sees it. -/
def ensure_scratch_gdb (temp_dir : String) (st : GisState) : String × GisState :=
  let gdb_path := temp_dir ++ "/scratch_vectors.gdb"
  if fsContains st.fs gdb_path then (gdb_path, st)
  else
    (gdb_path,
      { (st.addOp (.createFileGDB temp_dir "scratch_vectors.gdb")) with
        fs := fsAdd st.fs gdb_path })

/-- Lines 184-185 of prep_vector_to_gpkg: create the GeoPackage container when
the engine does not already see it. -/
def ensureGpkg (out_gpkg : String) (st : GisState) : GisState :=
  if fsContains st.fs out_gpkg then st
  else { (st.addOp (.createSQLiteDatabase out_gpkg)) with fs := fsAdd st.fs out_gpkg }

/-- Lines 191-203 of prep_vector_to_gpkg: when the source EPSG differs from the
target, project into a temp feature class inside the scratch FileGDB (creating
the GDB if needed, deleting a stale temp output under overwrite) and return it;
otherwise pass the source feature class through untouched. -/
def projectIfNeeded (src_fc out_layer : String) (target_epsg : Nat)
    (temp_dir : String) (overwrite : Bool) (src_epsg : Nat) (st : GisState) :
    String × GisState :=
  if src_epsg ≠ target_epsg then
    let pr := ensure_scratch_gdb temp_dir st
    let tmp_fc := pr.1 ++ "/" ++ out_layer ++ "_tmp_" ++ toString target_epsg
    let st :=
      if overwrite && fsContains pr.2.fs tmp_fc then
        { (pr.2.addOp (.deleteDataset tmp_fc)) with fs := fsRemove pr.2.fs tmp_fc }
      else pr.2
    (tmp_fc,
     { (st.addOp (.projectVector src_fc tmp_fc target_epsg)) with
       fs := fsAdd st.fs tmp_fc, crs := crsSet st.crs tmp_fc target_epsg })
  else (src_fc, st)

/-- Lines 205-213 of prep_vector_to_gpkg: delete a pre-existing destination
layer under overwrite, then copy the (possibly projected) feature class into the
container as the named layer. -/
def finalCopy (projected_fc out_gpkg out_layer : String) (overwrite : Bool)
    (st : GisState) : GisState :=
  let out_layer_path := gpkg_layer_path out_gpkg out_layer
  let st :=
    if overwrite && fsContains st.fs out_layer_path then
      { (st.addOp (.deleteDataset out_layer_path)) with
        fs := fsRemove st.fs out_layer_path }
    else st
  { (st.addOp (.fcToFc projected_fc out_gpkg out_layer)) with
    fs := fsAdd st.fs out_layer_path,
    crs :=
      match epsg_of_dataset st projected_fc with
      | some e => crsSet st.crs out_layer_path e
      | none => st.crs }

/-- src/prepare_input_layers.py lines 171-214 (prep_vector_to_gpkg): create the
GeoPackage container if absent, fail on an unreadable source CRS, project through
a scratch FileGDB only when the source EPSG differs from the target, then copy the
(possibly projected) feature class into the container as the named layer. -/
def prep_vector_to_gpkg (src_fc out_gpkg out_layer : String) (target_epsg : Nat)
    (temp_dir : String) (overwrite : Bool) (st : GisState) :
    Except PyError String × GisState :=
  let st := ensureGpkg out_gpkg st
  match epsg_of_dataset st src_fc with
  | none => (.error (.valueError ("Vector has no readable CRS: " ++ src_fc)), st)
  | some src_epsg =>
    let pr := projectIfNeeded src_fc out_layer target_epsg temp_dir overwrite
      src_epsg st
    (.ok (gpkg_layer_path out_gpkg out_layer),
     finalCopy pr.1 out_gpkg out_layer overwrite pr.2)

/-- src/prepare_input_layers.py lines 241-279 (prep_raster_to_target).
Line 254 reads: out_raster = raster_outpath_in_subfolder(prepared_tif).
raster_outpath_in_subfolder (lines 62-65) is declared with TWO required
positional parameters (prepared_folder, raster_name), so this call raises
TypeError in Python before any CRS resolution, projection or copy is attempted;
the remainder of the function body (lines 256-279) is unreachable. -/
def prep_raster_to_target (src_raster prepared_tif : String) (target_epsg : Nat)
    (temp_dir resampling : String) (assume_src_epsg_if_missing : Option Nat)
    (overwrite : Bool) (st : GisState) : Except PyError String × GisState :=
  (.error (.typeError
    ("raster_outpath_in_subfolder() missing 1 required positional argument: " ++
     "raster_name")), st)

def insertSorted (x : String) : List String → List String
  | [] => [x]
  | y :: ys => if x ≤ y then x :: y :: ys else y :: insertSorted x ys

/-- Python sorted() over strings: ascending lexicographic order. -/
def sortStrings : List String → List String
  | [] => []
  | x :: xs => insertSorted x (sortStrings xs)

/-- Python glob *.tif over a directory (non-recursive, dotfiles excluded),
sorted lexicographically as done at src/prepare_input_layers.py line 294. -/
def globTifs (fs : List String) (dir : String) : List String :=
  sortStrings (fs.filter (fun p =>
    dirOf p = dir && (pathName p).endsWith ".tif" && !(pathName p).startsWith "."))

/-- src/prepare_input_layers.py lines 286-314 (mosaic_dir_to_raster): glob and
sort the tiles, fail fatally when none are found (before any deletion of a
pre-existing output), unlink the pre-existing output only under overwrite, then
run the engine mosaic. -/
def mosaic_dir_to_raster (raster_dir out_mosaic : String) (overwrite : Bool)
    (st : GisState) : Except PyError String × GisState :=
  let tif_paths := globTifs st.fs raster_dir
  if tif_paths.isEmpty then
    (.error (.fileNotFoundError ("No .tif rasters found in: " ++ raster_dir)), st)
  else
    let st :=
      if overwrite && fsContains st.fs out_mosaic then
        { st with fs := fsRemove st.fs out_mosaic }
      else st
    let st :=
      { (st.addOp (.mosaicToNewRaster tif_paths out_mosaic)) with
        fs := fsAdd st.fs out_mosaic }
    (.ok out_mosaic, st)

/-- Python dict subscript d[k] over an insertion-ordered association list. -/
def dictGet : List (String × String) → String → Option String
  | [], _ => none
  | (q, v) :: rest, k => if q = k then some v else dictGet rest k

/-- One mosaicked-raster block of prepare_source_inputs (DEM lines 350-374,
water table lines 377-400, slope lines 403-427): skip when the prepared output
exists, otherwise mosaic the tile directory into tempspace and hand the mosaic
to prep_raster_to_target (which raises TypeError, see its docstring). -/
def rasterMosaicBlock (key dirKey tmpName resampling : String)
    (assume : Option Nat) (source_inputs prepared_outputs : List (String × String))
    (tempspace : String) (target_epsg : Nat) (overwrite : Bool) (st : GisState) :
    Except PyError Unit × GisState :=
  match dictGet prepared_outputs key with
  | none => (.error (.keyError key), st)
  | some outPath =>
    if prepared_exists key outPath st.fs then (.ok (), st)
    else
      match dictGet source_inputs dirKey with
      | none => (.error (.keyError dirKey), st)
      | some srcDir =>
        match mosaic_dir_to_raster srcDir (tempspace ++ "/" ++ tmpName) overwrite st with
        | (.error e, st1) => (.error e, st1)
        | (.ok m, st1) =>
          match prep_raster_to_target m outPath target_epsg tempspace resampling
              assume overwrite st1 with
          | (.error e, st2) => (.error e, st2)
          | (.ok _, st2) => (.ok (), st2)

/-- Rainfall block of prepare_source_inputs (lines 430-444): single raster, no
mosaic step, straight to prep_raster_to_target when the output is missing. -/
def rainfallBlock (source_inputs prepared_outputs : List (String × String))
    (tempspace : String) (target_epsg : Nat) (overwrite : Bool) (st : GisState) :
    Except PyError Unit × GisState :=
  match dictGet prepared_outputs "rainfall" with
  | none => (.error (.keyError "rainfall"), st)
  | some outPath =>
    if prepared_exists "rainfall" outPath st.fs then (.ok (), st)
    else
      match dictGet source_inputs "rainfall" with
      | none => (.error (.keyError "rainfall"), st)
      | some src =>
        match prep_raster_to_target src outPath target_epsg tempspace "BILINEAR"
            none overwrite st with
        | (.error e, st1) => (.error e, st1)
        | (.ok _, st1) => (.ok (), st1)

/-- src/prepare_input_layers.py lines 451-462: the fixed vector job list. -/
def vector_jobs : List (String × String) :=
  [("parcels", "parcels"), ("cesspools", "cesspools"), ("coastline", "coastline"),
   ("sma", "sma"), ("streams", "streams"), ("wells_dom", "wells_dom"),
   ("wells_mun", "wells_mun"), ("buildings_fps", "buildings_fps"),
   ("soils", "soils"), ("flood_zones", "flood_zones")]

/-- Body of the vector loop of prepare_source_inputs (lines 464-480) for one job:
the layer is skipped when the destination GeoPackage CONTAINER file exists
(path_exists(out_gpkg), line 466); otherwise prep_vector_to_gpkg runs. -/
def vectorStep (source_inputs prepared_outputs : List (String × String))
    (tempspace : String) (target_epsg : Nat) (overwrite : Bool)
    (job : String × String) (st : GisState) : Except PyError Unit × GisState :=
  match dictGet prepared_outputs job.1 with
  | none => (.error (.keyError job.1), st)
  | some out_gpkg =>
    if path_exists st out_gpkg then (.ok (), st)
    else
      match dictGet source_inputs job.1 with
      | none => (.error (.keyError job.1), st)
      | some src =>
        match prep_vector_to_gpkg src out_gpkg job.2 target_epsg tempspace
            overwrite st with
        | (.error e, st1) => (.error e, st1)
        | (.ok _, st1) => (.ok (), st1)

/-- The vector loop of prepare_source_inputs (lines 464-480). -/
def vectorLoop (source_inputs prepared_outputs : List (String × String))
    (tempspace : String) (target_epsg : Nat) (overwrite : Bool) :
    List (String × String) → GisState → Except PyError Unit × GisState
  | [], st => (.ok (), st)
  | job :: rest, st =>
    match vectorStep source_inputs prepared_outputs tempspace target_epsg
        overwrite job st with
    | (.error e, st1) => (.error e, st1)
    | (.ok _, st1) =>
      vectorLoop source_inputs prepared_outputs tempspace target_epsg overwrite rest st1

/-- Lines 344-480 of prepare_source_inputs: the four raster blocks in order
(dem, watertable, slope, rainfall) followed by the ten vector jobs. -/
def prepareLayers (source_inputs prepared_outputs : List (String × String))
    (tempspace : String) (target_epsg : Nat) (overwrite : Bool) (st : GisState) :
    Except PyError Unit × GisState :=
  match rasterMosaicBlock "dem" "dem_dir" "dem_mosaic_tmp.tif" "BILINEAR"
      (some 4326) source_inputs prepared_outputs tempspace target_epsg overwrite st with
  | (.error e, st1) => (.error e, st1)
  | (.ok _, st1) =>
    match rasterMosaicBlock "watertable" "watertable_dir" "watertable_mosaic_tmp.tif"
        "NEAREST" none source_inputs prepared_outputs tempspace target_epsg
        overwrite st1 with
    | (.error e, st2) => (.error e, st2)
    | (.ok _, st2) =>
      match rasterMosaicBlock "slope" "slope_dir" "slope_mosaic_tmp.tif" "BILINEAR"
          (some 4326) source_inputs prepared_outputs tempspace target_epsg
          overwrite st2 with
      | (.error e, st3) => (.error e, st3)
      | (.ok _, st3) =>
        match rainfallBlock source_inputs prepared_outputs tempspace target_epsg
            overwrite st3 with
        | (.error e, st4) => (.error e, st4)
        | (.ok _, st4) =>
          vectorLoop source_inputs prepared_outputs tempspace target_epsg overwrite
            vector_jobs st4

/-- src/prepare_input_layers.py lines 321-484 (prepare_source_inputs): compute
the missing prepared outputs up front; when none are missing return the
prepared_outputs manifest immediately with no engine call; otherwise run all
layer blocks and return the same manifest. -/
def prepare_source_inputs (source_inputs prepared_outputs : List (String × String))
    (tempspace : String) (target_epsg : Nat) (overwrite : Bool) (st : GisState) :
    Except PyError (List (String × String)) × GisState :=
  if (prepared_outputs.filter (fun kp => !(prepared_exists kp.1 kp.2 st.fs))).isEmpty
  then (.ok prepared_outputs, st)
  else
    match prepareLayers source_inputs prepared_outputs tempspace target_epsg
        overwrite st with
    | (.error e, st1) => (.error e, st1)
    | (.ok _, st1) => (.ok prepared_outputs, st1)

end Prep

namespace Dl

/-- Outcome of one streaming attempt, as delivered by the network environment:
the request succeeds and streams n further bytes to the open file; or it fails
before the output file is opened (connection error, non-2xx status); or it fails
mid-stream after n bytes were already written to the open file. -/
inductive NetOutcome where
  | success (n : Nat)
  | failConn
  | failMid (n : Nat)
deriving DecidableEq, Repr

def NetOutcome.isSuccess : NetOutcome → Bool
  | .success _ => true
  | _ => false

/-- One HTTP request issued by the streaming loop: its 1-based attempt number,
the byte-range start carried in the Range header (none = no Range header), and
the size the .part sidecar had when the request was issued (observation only). -/
structure ReqEntry where
  attempt : Nat
  rangeStart : Option Nat
  sidecarSize : Option Nat
deriving DecidableEq, Repr

/-- Filesystem of the download module: existing files with their byte sizes. -/
abbrev DlFs := List (String × Nat)

def dlSize : DlFs → String → Option Nat
  | [], _ => none
  | (q, n) :: rest, p => if q = p then some n else dlSize rest p

def dlExists (fs : DlFs) (p : String) : Bool := (dlSize fs p).isSome

def dlSet (fs : DlFs) (p : String) (n : Nat) : DlFs :=
  match fs with
  | [] => [(p, n)]
  | (q, m) :: rest => if q = p then (p, n) :: rest else (q, m) :: dlSet rest p n

def dlRemove (fs : DlFs) (p : String) : DlFs :=
  fs.filter (fun q => q.1 ≠ p)

/-- os.replace semantics of Path.replace: atomically rename src onto dst. -/
def dlRename (fs : DlFs) (src dst : String) : DlFs :=
  let sz := (dlSize fs src).getD 0
  dlSet (dlRemove fs src) dst sz

/-- State threaded through the download module: the filesystem, the ordered list
of artifact/listing URLs fetched over the network, the streaming-request trace,
the backoff sleeps performed (seconds), and a snapshot of the filesystem after
every mutation performed by download_streaming (its observable states). -/
structure DlState where
  fs : DlFs
  fetches : List String
  reqs : List ReqEntry
  sleeps : List Nat
  snaps : List DlFs
deriving DecidableEq, Repr

def DlState.snap (st : DlState) : DlState := { st with snaps := st.snaps ++ [st.fs] }

/-- The retry loop of download_streaming (src/download_input_layers.py lines
120-141).  rangeStart and resume_pos are fixed for the whole call (computed once
at lines 115-118); the file open mode is append exactly when the Range header was
sent (line 125), i.e. when rangeStart is set, and truncating otherwise.
remaining counts the attempts left out of retries; attempt is the 1-based number
of the next attempt.  After the budget is exhausted line 141 raises RuntimeError
naming the destination basename and the attempt budget. -/
def dlLoop (out tmp : String) (rangeStart : Option Nat)
    (net : Nat → NetOutcome) (retries : Nat) :
    Nat → Nat → DlState → Except PyError Unit × DlState
  | _, 0, st =>
    (.error (.runtimeError
      ("Failed after " ++ toString retries ++ " attempts: " ++ Prep.pathName out)), st)
  | attempt, remaining + 1, st =>
    let st :=
      { st with
        reqs := st.reqs ++ [(⟨attempt, rangeStart, dlSize st.fs tmp⟩ : ReqEntry)] }
    match net attempt with
    | .success n =>
      let newSize := if rangeStart.isSome then (dlSize st.fs tmp).getD 0 + n else n
      let st := DlState.snap { st with fs := dlSet st.fs tmp newSize }
      let st := DlState.snap { st with fs := dlRename st.fs tmp out }
      (.ok (), st)
    | .failConn =>
      let st := { st with sleeps := st.sleeps ++ [min 60 (2 ^ attempt)] }
      dlLoop out tmp rangeStart net retries (attempt + 1) remaining st
    | .failMid n =>
      let newSize := if rangeStart.isSome then (dlSize st.fs tmp).getD 0 + n else n
      let st := DlState.snap { st with fs := dlSet st.fs tmp newSize }
      let st := { st with sleeps := st.sleeps ++ [min 60 (2 ^ attempt)] }
      dlLoop out tmp rangeStart net retries (attempt + 1) remaining st

/-- src/download_input_layers.py lines 96-141 (download_streaming): skip when the
destination already exists without overwrite; otherwise resolve the sidecar path
(out + .part), read its current size ONCE, decide the Range header ONCE from that
size, and run the retry loop. -/
def download_streaming (out : String) (overwrite : Bool) (retries : Nat)
    (net : Nat → NetOutcome) (st : DlState) : Except PyError Unit × DlState :=
  if dlExists st.fs out && !overwrite then (.ok (), st)
  else
    let tmp := out ++ ".part"
    let resume_pos := (dlSize st.fs tmp).getD 0
    let rangeStart : Option Nat :=
      if resume_pos > 0 && !overwrite then some resume_pos else none
    dlLoop out tmp rangeStart net retries 1 retries st

/-- Remote ZIP environment: for a URL, none models an HTTP error raised by
raise_for_status, some (zipSize, entries) a valid archive whose extraction
yields the listed (relative path, size) entries. -/
abbrev ZipNet := String → Option (Nat × List (String × Nat))

/-- src/download_input_layers.py lines 16-38 (download_and_unzip): fetch the URL
unconditionally (there is no existence check in this function), write the ZIP,
extract every entry into the dataset folder, delete the ZIP. -/
def download_and_unzip (dataset_id url raw_dir : String) (zipnet : ZipNet)
    (st : DlState) : Except PyError Unit × DlState :=
  let out_folder := raw_dir ++ "/" ++ dataset_id
  let zip_path := out_folder ++ "/" ++ dataset_id ++ ".zip"
  let st := { st with fetches := st.fetches ++ [url] }
  match zipnet url with
  | none => (.error (.runtimeError ("HTTP error for url: " ++ url)), st)
  | some (zipSize, entries) =>
    let st := { st with fs := dlSet st.fs zip_path zipSize }
    let st :=
      { st with
        fs := entries.foldl
          (fun (fs : DlFs) (e : String × Nat) =>
            dlSet fs (out_folder ++ "/" ++ e.1) e.2) st.fs }
    let st := { st with fs := dlRemove st.fs zip_path }
    (.ok (), st)

/-- One entry of a GitHub Contents API listing: a file with its download URL and
size, or a subdirectory with its own listing URL and entries.  The remote tree is
finite and acyclic by construction of the API. -/
inductive GhEntry where
  | file (name dlurl : String) (size : Nat)
  | dir (name url : String) (entries : List GhEntry)

mutual
/-- Per-item body of the inner _download_folder loop
(src/download_input_layers.py lines 66-82): a file is skipped iff it already
exists at the destination and overwrite is false, otherwise its download URL is
fetched and the file written; a directory entry recurses. -/
def ghHandleEntry (overwrite : Bool) (dest : String) (st : DlState) :
    GhEntry → DlState
  | .file name dlurl size =>
    let dst := dest ++ "/" ++ name
    if dlExists st.fs dst && !overwrite then st
    else
      { st with fetches := st.fetches ++ [dlurl], fs := dlSet st.fs dst size }
  | .dir name url entries => ghFolder overwrite (dest ++ "/" ++ name) url entries st

/-- src/download_input_layers.py lines 61-84 (_download_folder): fetch the
listing URL, then handle each entry in order. -/
def ghFolder (overwrite : Bool) (dest url : String) (entries : List GhEntry)
    (st : DlState) : DlState :=
  ghHandleList overwrite dest entries { st with fetches := st.fetches ++ [url] }

def ghHandleList (overwrite : Bool) (dest : String) :
    List GhEntry → DlState → DlState
  | [], st => st
  | e :: rest, st => ghHandleList overwrite dest rest (ghHandleEntry overwrite dest st e)
end

/-- src/download_input_layers.py lines 41-88 (download_github_folder). -/
def download_github_folder (dataset_id api_url raw_dir : String)
    (entries : List GhEntry) (overwrite : Bool) (st : DlState) : DlState :=
  ghFolder overwrite (raw_dir ++ "/" ++ dataset_id) api_url entries st

/-- src/download_input_layers.py lines 91-93 (pacioos_build_ncss_url). -/
def pacioos_build_ncss_url (ncss_base dataset_id : String) : String :=
  ncss_base ++ "/" ++ dataset_id ++ "?var=elev&horizStride=1&accept=netcdf"

/-- src/download_input_layers.py lines 144-187 (nc_to_geotiff_and_delete): when
the GeoTIFF already exists without overwrite, delete the NetCDF and any sidecar
and return; otherwise fail if gdal_translate is missing (gdal = none) or the
NetCDF is absent, else convert (gdal gives the produced GeoTIFF size) and delete
the NetCDF. -/
def nc_to_geotiff_and_delete (nc_path tif_path : String) (overwrite_tif : Bool)
    (gdal : Option (String → Nat)) (st : DlState) : Except PyError Unit × DlState :=
  if dlExists st.fs tif_path && !overwrite_tif then
    let st := { st with fs := dlRemove st.fs nc_path }
    let st := { st with fs := dlRemove st.fs (nc_path ++ ".part") }
    (.ok (), st)
  else
    match gdal with
    | none =>
      (.error (.runtimeError
        ("gdal_translate not found on PATH. Install GDAL (CLI) or switch to a " ++
         "pure-Python conversion approach.")), st)
    | some conv =>
      if !dlExists st.fs nc_path then
        (.error (.runtimeError ("Expected NetCDF does not exist: " ++ nc_path)), st)
      else
        let st := { st with fs := dlSet st.fs tif_path (conv nc_path) }
        let st := { st with fs := dlRemove st.fs nc_path }
        (.ok (), st)

/-- One iteration of the download_pacioos_dems loop
(src/download_input_layers.py lines 210-227): when the GeoTIFF already exists
without overwrite, clean up any sidecar and NetCDF and continue without any
fetch; otherwise stream the NetCDF then convert it. -/
def pacioosStep (ncss_base out_dir : String) (overwrite_tif overwrite_nc : Bool)
    (retries : Nat) (net : String → Nat → NetOutcome) (gdal : Option (String → Nat))
    (ds : String) (st : DlState) : Except PyError Unit × DlState :=
  let url := pacioos_build_ncss_url ncss_base ds
  let nc_path := out_dir ++ "/" ++ ds ++ ".nc"
  let tif_path := out_dir ++ "/" ++ ds ++ ".tif"
  if dlExists st.fs tif_path && !overwrite_tif then
    let st := { st with fs := dlRemove st.fs (nc_path ++ ".part") }
    let st := { st with fs := dlRemove st.fs nc_path }
    (.ok (), st)
  else
    match download_streaming nc_path overwrite_nc retries (net url) st with
    | (.error e, st1) => (.error e, st1)
    | (.ok _, st1) => nc_to_geotiff_and_delete nc_path tif_path overwrite_tif gdal st1

/-- src/download_input_layers.py lines 190-230 (download_pacioos_dems). -/
def download_pacioos_dems (raw_dir dem_dir ncss_base : String)
    (overwrite_tif overwrite_nc : Bool) (net : String → Nat → NetOutcome)
    (gdal : Option (String → Nat)) :
    List String → DlState → Except PyError Unit × DlState
  | [], st => (.ok (), st)
  | ds :: rest, st =>
    match pacioosStep ncss_base (raw_dir ++ "/" ++ dem_dir) overwrite_tif
        overwrite_nc 8 net gdal ds st with
    | (.error e, st1) => (.error e, st1)
    | (.ok _, st1) =>
      download_pacioos_dems raw_dir dem_dir ncss_base overwrite_tif overwrite_nc
        net gdal rest st1

def zipList (raw_dir : String) (zipnet : ZipNet) :
    List (String × String) → DlState → Except PyError Unit × DlState
  | [], st => (.ok (), st)
  | (name, url) :: rest, st =>
    match download_and_unzip name url raw_dir zipnet st with
    | (.error e, st1) => (.error e, st1)
    | (.ok _, st1) => zipList raw_dir zipnet rest st1

def ghList (raw_dir : String) (overwrite : Bool) :
    List (String × String × List GhEntry) → DlState → DlState
  | [], st => st
  | (dataset_id, api_url, entries) :: rest, st =>
    ghList raw_dir overwrite rest
      (download_github_folder dataset_id api_url raw_dir entries overwrite st)

/-- src/download_input_layers.py lines 233-266 (main): the ZIP sources, then the
GitHub folder sources, then the PacIOOS DEM catalog. -/
def mainAcquire (raw_dir : String) (zip_sources : List (String × String))
    (github_datasets : List (String × String × List GhEntry))
    (pacioos_dem_dir pacioos_ncss_base : String)
    (pacioos_dem_dataset_ids : List String)
    (overwrite overwrite_dem_tif overwrite_dem_nc : Bool)
    (zipnet : ZipNet) (net : String → Nat → NetOutcome)
    (gdal : Option (String → Nat)) (st : DlState) : Except PyError Unit × DlState :=
  match zipList raw_dir zipnet zip_sources st with
  | (.error e, st1) => (.error e, st1)
  | (.ok _, st1) =>
    let st2 := ghList raw_dir overwrite github_datasets st1
    download_pacioos_dems raw_dir pacioos_dem_dir pacioos_ncss_base
      overwrite_dem_tif overwrite_dem_nc net gdal pacioos_dem_dataset_ids st2

end Dl

open Prep Dl

/-- C7: a directory with zero .tif tiles makes mosaic_dir_to_raster raise
FileNotFoundError naming the directory, with the state returned untouched: no
engine operation runs and no output file is produced. -/
theorem mosaic_zero_tiles_fatal (raster_dir out_mosaic : String) (overwrite : Bool)
    (st : GisState) (h : globTifs st.fs raster_dir = []) :
    mosaic_dir_to_raster raster_dir out_mosaic overwrite st =
      (.error (.fileNotFoundError ("No .tif rasters found in: " ++ raster_dir)), st) := by
  unfold mosaic_dir_to_raster
  rw [h]
  rfl

/-- Witness for mosaic_zero_tiles_fatal at a concrete empty filesystem. -/
theorem mosaic_zero_tiles_fatal_witness :
    globTifs ([] : List String) "tiles" = [] ∧
    mosaic_dir_to_raster "tiles" "out/m.tif" true ⟨[], [], []⟩ =
      (.error (.fileNotFoundError ("No .tif rasters found in: " ++ "tiles")),
       (⟨[], [], []⟩ : GisState)) :=
  ⟨by decide, mosaic_zero_tiles_fatal "tiles" "out/m.tif" true ⟨[], [], []⟩ (by decide)⟩

/-- C10: with overwrite set and a file already present at the output path, the
zero-tile check fires before the deletion of the pre-existing output, so the call
raises and returns the state unchanged: the pre-existing output file is still on
disk. -/
theorem mosaic_zero_tiles_preserves_existing_output (raster_dir out_mosaic : String)
    (st : GisState) (h : globTifs st.fs raster_dir = [])
    (hex : fsContains st.fs out_mosaic = true) :
    mosaic_dir_to_raster raster_dir out_mosaic true st =
      (.error (.fileNotFoundError ("No .tif rasters found in: " ++ raster_dir)), st) ∧
    fsContains (mosaic_dir_to_raster raster_dir out_mosaic true st).2.fs out_mosaic
      = true := by
  have hres : mosaic_dir_to_raster raster_dir out_mosaic true st =
      (.error (.fileNotFoundError ("No .tif rasters found in: " ++ raster_dir)), st) := by
    unfold mosaic_dir_to_raster
    rw [h]
    rfl
  exact ⟨hres, by rw [hres]; exact hex⟩

/-- Witness for mosaic_zero_tiles_preserves_existing_output: the output file
out/m.tif exists beforehand, the tile directory is empty, and out/m.tif survives
the failed call. -/
theorem mosaic_zero_tiles_preserves_existing_output_witness :
    globTifs ["out/m.tif"] "tiles" = [] ∧
    fsContains ["out/m.tif"] "out/m.tif" = true ∧
    (mosaic_dir_to_raster "tiles" "out/m.tif" true ⟨["out/m.tif"], [], []⟩ =
      (.error (.fileNotFoundError ("No .tif rasters found in: " ++ "tiles")),
       (⟨["out/m.tif"], [], []⟩ : GisState)) ∧
     fsContains (mosaic_dir_to_raster "tiles" "out/m.tif" true
        ⟨["out/m.tif"], [], []⟩).2.fs "out/m.tif" = true) :=
  ⟨by decide, by decide,
   mosaic_zero_tiles_preserves_existing_output "tiles" "out/m.tif"
     ⟨["out/m.tif"], [], []⟩ (by decide) (by decide)⟩

/-- C3: prep_raster_to_target never reaches its terminal state.  Line 254 of
src/prepare_input_layers.py computes the output path by calling
raster_outpath_in_subfolder(prepared_tif), passing one positional argument to a
function declared with two required positional parameters (lines 62-65), so every
call raises TypeError at the point where the canonical output path should be
computed — here evaluated on a source raster with a readable native CRS equal to
none of the error conditions the claim allows.  The helper that matches the
claimed layout, raster_subfolder_path (lines 50-59), is not the one called. -/
theorem prep_raster_always_type_error :
    prep_raster_to_target "raw/rainfall.tif" "prepared/rainfall.tif" 32604 "tmp"
      "BILINEAR" none true ⟨["raw/rainfall.tif"], [("raw/rainfall.tif", 4326)], []⟩ =
    (.error (.typeError
        ("raster_outpath_in_subfolder() missing 1 required positional argument: " ++
         "raster_name")),
     (⟨["raw/rainfall.tif"], [("raw/rainfall.tif", 4326)], []⟩ : GisState)) ∧
    raster_subfolder_path "prepared/rainfall.tif" =
      "prepared/rainfall/rainfall.tif" := by
  exact ⟨rfl, by decide⟩

/-- C8: the equal-EPSG rule.  For vectors it holds: with source EPSG equal to the
target, prep_vector_to_gpkg performs no engine reprojection, only the container
creation and the plain feature-class copy.  For rasters it cannot hold as
claimed: prep_raster_to_target raises TypeError (see prep_raster_always_type_error)
before the copy-vs-reproject branch at lines 270-278 is reached, so no CopyRaster
is ever performed even when source EPSG equals target EPSG. -/
theorem crs_equal_epsg_evaluated :
    (prep_vector_to_gpkg "src/parcels.shp" "prep/v.gpkg" "parcels" 32604 "tmp" false
        ⟨["src/parcels.shp"], [("src/parcels.shp", 32604)], []⟩ =
      (.ok "prep/v.gpkg/parcels",
       (⟨["src/parcels.shp", "prep/v.gpkg", "prep/v.gpkg/parcels"],
         [("prep/v.gpkg/parcels", 32604), ("src/parcels.shp", 32604)],
         [.createSQLiteDatabase "prep/v.gpkg",
          .fcToFc "src/parcels.shp" "prep/v.gpkg" "parcels"]⟩ : GisState))) ∧
    (prep_raster_to_target "raw/r.tif" "prepared/r.tif" 32604 "tmp" "BILINEAR" none
        true ⟨["raw/r.tif"], [("raw/r.tif", 32604)], []⟩ =
      (.error (.typeError
          ("raster_outpath_in_subfolder() missing 1 required positional argument: " ++
           "raster_name")),
       (⟨["raw/r.tif"], [("raw/r.tif", 32604)], []⟩ : GisState))) := by
  exact ⟨rfl, rfl⟩

/-- C2 counterexample: a concrete prepare_source_inputs run in which the shared
GeoPackage container prepared/vectors.gpkg exists but the parcels layer inside it
does not.  The claim says parcels is then treated as incomplete and prepared; the
code (line 466: path_exists(out_gpkg)) skips it.  The run completes with engine
operations only for cesspools (whose container is missing), and the parcels layer
still does not exist afterwards. -/
theorem vector_container_without_layer_skipped :
    (prepare_source_inputs
      [("cesspools", "src/cesspools.shp")]
      [("dem", "prepared/dem.tif"), ("watertable", "prepared/wt.tif"),
       ("slope", "prepared/slope.tif"), ("rainfall", "prepared/rain.tif"),
       ("parcels", "prepared/vectors.gpkg"), ("cesspools", "prepared/cesspools.gpkg"),
       ("coastline", "prepared/vectors.gpkg"), ("sma", "prepared/vectors.gpkg"),
       ("streams", "prepared/vectors.gpkg"), ("wells_dom", "prepared/vectors.gpkg"),
       ("wells_mun", "prepared/vectors.gpkg"),
       ("buildings_fps", "prepared/vectors.gpkg"),
       ("soils", "prepared/vectors.gpkg"), ("flood_zones", "prepared/vectors.gpkg")]
      "tmp" 32604 false
      ⟨["prepared/dem/dem.tif", "prepared/wt/wt.tif", "prepared/slope/slope.tif",
        "prepared/rain/rain.tif", "prepared/vectors.gpkg", "src/cesspools.shp"],
       [("src/cesspools.shp", 32604)], []⟩).2.ops =
      [.createSQLiteDatabase "prepared/cesspools.gpkg",
       .fcToFc "src/cesspools.shp" "prepared/cesspools.gpkg" "cesspools"] ∧
    fsContains
      (prepare_source_inputs
        [("cesspools", "src/cesspools.shp")]
        [("dem", "prepared/dem.tif"), ("watertable", "prepared/wt.tif"),
         ("slope", "prepared/slope.tif"), ("rainfall", "prepared/rain.tif"),
         ("parcels", "prepared/vectors.gpkg"), ("cesspools", "prepared/cesspools.gpkg"),
         ("coastline", "prepared/vectors.gpkg"), ("sma", "prepared/vectors.gpkg"),
         ("streams", "prepared/vectors.gpkg"), ("wells_dom", "prepared/vectors.gpkg"),
         ("wells_mun", "prepared/vectors.gpkg"),
         ("buildings_fps", "prepared/vectors.gpkg"),
         ("soils", "prepared/vectors.gpkg"), ("flood_zones", "prepared/vectors.gpkg")]
        "tmp" 32604 false
        ⟨["prepared/dem/dem.tif", "prepared/wt/wt.tif", "prepared/slope/slope.tif",
          "prepared/rain/rain.tif", "prepared/vectors.gpkg", "src/cesspools.shp"],
         [("src/cesspools.shp", 32604)], []⟩).2.fs
      "prepared/vectors.gpkg/parcels" = false := by
  exact ⟨by decide, by decide⟩

theorem fsContains_fsAdd_self (fs : List String) (p : String) :
    fsContains (fsAdd fs p) p = true := by
  unfold fsAdd
  split
  · assumption
  · simp [fsContains]

theorem opsLen_ensureGpkg (g : String) (st : GisState) :
    st.ops.length ≤ (ensureGpkg g st).ops.length := by
  unfold ensureGpkg
  split
  · exact Nat.le_refl _
  · simp [GisState.addOp]

theorem opsLen_scratch (t : String) (st : GisState) :
    st.ops.length ≤ (ensure_scratch_gdb t st).2.ops.length := by
  unfold ensure_scratch_gdb
  dsimp only
  split
  · exact Nat.le_refl _
  · simp [GisState.addOp]

theorem opsLen_projectIfNeeded (s l : String) (e : Nat) (t : String) (ow : Bool)
    (se : Nat) (st : GisState) :
    st.ops.length ≤ (projectIfNeeded s l e t ow se st).2.ops.length := by
  unfold projectIfNeeded
  dsimp only
  split
  · have h1 := opsLen_scratch t st
    split <;> simp [GisState.addOp] <;> omega
  · exact Nat.le_refl _

theorem finalCopy_effect (p g l : String) (ow : Bool) (st : GisState) :
    fsContains (finalCopy p g l ow st).fs (gpkg_layer_path g l) = true ∧
    st.ops.length < (finalCopy p g l ow st).ops.length := by
  unfold finalCopy
  dsimp only
  constructor
  · split <;> simp [fsContains_fsAdd_self]
  · split <;> simp [GisState.addOp]

theorem opsLen_prepChain (src_fc out_layer : String) (target_epsg : Nat)
    (temp_dir : String) (ow : Bool) (se : Nat) (out_gpkg pfc : String)
    (st : GisState) :
    st.ops.length <
      (finalCopy pfc out_gpkg out_layer ow
        (projectIfNeeded src_fc out_layer target_epsg temp_dir ow se
          (ensureGpkg out_gpkg st)).2).ops.length := by
  have h3 := opsLen_projectIfNeeded src_fc out_layer target_epsg temp_dir ow se
    (ensureGpkg out_gpkg st)
  have h4 := opsLen_ensureGpkg out_gpkg st
  have hf := (finalCopy_effect pfc out_gpkg out_layer ow
    (projectIfNeeded src_fc out_layer target_epsg temp_dir ow se
      (ensureGpkg out_gpkg st)).2).2
  omega

/-- A successful prep_vector_to_gpkg call leaves the named layer present inside
the destination GeoPackage and has performed at least one engine operation (at
minimum the final FeatureClassToFeatureClass copy). -/
theorem prep_vector_ok_effect (src_fc out_gpkg out_layer : String)
    (target_epsg : Nat) (temp_dir : String) (overwrite : Bool)
    (st st1 : GisState) (v : String)
    (h : prep_vector_to_gpkg src_fc out_gpkg out_layer target_epsg temp_dir
        overwrite st = (.ok v, st1)) :
    fsContains st1.fs (gpkg_layer_path out_gpkg out_layer) = true ∧
    st.ops.length < st1.ops.length := by
  unfold prep_vector_to_gpkg at h
  dsimp only at h
  split at h
  · simp at h
  · injection h with h1 h2
    subst h2
    exact ⟨(finalCopy_effect _ _ _ _ _).1, opsLen_prepChain _ _ _ _ _ _ _ _ _⟩

/-- C2 amended: in the vector loop of prepare_source_inputs a layer is treated
as complete — skipped with the state untouched — iff its destination GeoPackage
CONTAINER file exists (path_exists(out_gpkg), line 466), not iff its named layer
exists; and only when the container is missing does a successful step create the
named layer (performing engine work). -/
theorem vector_step_skips_iff_container_exists
    (si po : List (String × String)) (ts : String) (epsg : Nat) (ow : Bool)
    (job : String × String) (st : GisState) (g : String)
    (hpo : dictGet po job.1 = some g) :
    (vectorStep si po ts epsg ow job st = (.ok (), st) ↔ path_exists st g = true) ∧
    (path_exists st g = false → ∀ st1,
      vectorStep si po ts epsg ow job st = (.ok (), st1) →
      fsContains st1.fs (gpkg_layer_path g job.2) = true) := by
  constructor
  · constructor
    · intro hres
      by_contra hex
      rw [Bool.not_eq_true] at hex
      unfold vectorStep at hres
      rw [hpo] at hres
      dsimp only at hres
      rw [hex] at hres
      simp only [Bool.false_eq_true, if_false] at hres
      rcases hsi : dictGet si job.1 with _ | src
      · rw [hsi] at hres
        simp at hres
      · rw [hsi] at hres
        dsimp only at hres
        rcases hpv : prep_vector_to_gpkg src g job.2 epsg ts ow st with ⟨r, st1⟩
        rw [hpv] at hres
        cases r with
        | error e => simp at hres
        | ok v =>
          have heff := prep_vector_ok_effect src g job.2 epsg ts ow st st1 v hpv
          simp only [Prod.mk.injEq] at hres
          have : st1 = st := hres.2
          subst this
          omega
    · intro hex
      unfold vectorStep
      rw [hpo]
      simp [hex]
  · intro hex st1 hres
    unfold vectorStep at hres
    rw [hpo] at hres
    dsimp only at hres
    rw [hex] at hres
    simp only [Bool.false_eq_true, if_false] at hres
    rcases hsi : dictGet si job.1 with _ | src
    · rw [hsi] at hres
      simp at hres
    · rw [hsi] at hres
      dsimp only at hres
      rcases hpv : prep_vector_to_gpkg src g job.2 epsg ts ow st with ⟨r, st2⟩
      rw [hpv] at hres
      cases r with
      | error e => simp at hres
      | ok v =>
        have heff := prep_vector_ok_effect src g job.2 epsg ts ow st st2 v hpv
        simp only [Prod.mk.injEq] at hres
        rw [← hres.2]
        exact heff.1

/-- Witness for vector_step_skips_iff_container_exists: the parcels container
exists (without its layer being anywhere), and the step is the identity skip. -/
theorem vector_step_skips_iff_container_exists_witness :
    dictGet [("parcels", "prep/v.gpkg")] "parcels" = some "prep/v.gpkg" ∧
    ((vectorStep [] [("parcels", "prep/v.gpkg")] "tmp" 32604 false
        ("parcels", "parcels") ⟨["prep/v.gpkg"], [], []⟩ =
      (.ok (), (⟨["prep/v.gpkg"], [], []⟩ : GisState)) ↔
        path_exists (⟨["prep/v.gpkg"], [], []⟩ : GisState) "prep/v.gpkg" = true) ∧
     (path_exists (⟨["prep/v.gpkg"], [], []⟩ : GisState) "prep/v.gpkg" = false →
        ∀ st1, vectorStep [] [("parcels", "prep/v.gpkg")] "tmp" 32604 false
          ("parcels", "parcels") ⟨["prep/v.gpkg"], [], []⟩ = (.ok (), st1) →
        fsContains st1.fs (gpkg_layer_path "prep/v.gpkg" "parcels") = true)) :=
  ⟨by decide,
   vector_step_skips_iff_container_exists [] [("parcels", "prep/v.gpkg")] "tmp"
     32604 false ("parcels", "parcels") ⟨["prep/v.gpkg"], [], []⟩ "prep/v.gpkg"
     (by decide)⟩

theorem dlSize_cons (x : String) (m : Nat) (rest : DlFs) (p : String) :
    dlSize ((x, m) :: rest) p = if x = p then some m else dlSize rest p := rfl

theorem dlSet_cons (x : String) (m : Nat) (rest : DlFs) (q : String) (n : Nat) :
    dlSet ((x, m) :: rest) q n =
      if x = q then (q, n) :: rest else (x, m) :: dlSet rest q n := rfl

theorem dlRemove_cons (x : String) (m : Nat) (rest : DlFs) (q : String) :
    dlRemove ((x, m) :: rest) q =
      if x = q then dlRemove rest q else (x, m) :: dlRemove rest q := by
  by_cases hx : x = q
  · simp [dlRemove, List.filter_cons, hx]
  · simp [dlRemove, List.filter_cons, hx]

theorem dlSize_set_self (fs : DlFs) (q : String) (n : Nat) :
    dlSize (dlSet fs q n) q = some n := by
  induction fs with
  | nil => simp [dlSet, dlSize]
  | cons a rest ih =>
    rcases a with ⟨x, m⟩
    rw [dlSet_cons]
    by_cases hx : x = q
    · rw [if_pos hx, dlSize_cons, if_pos rfl]
    · rw [if_neg hx, dlSize_cons, if_neg hx]
      exact ih

theorem dlSize_set_ne (fs : DlFs) (p q : String) (n : Nat) (h : p ≠ q) :
    dlSize (dlSet fs q n) p = dlSize fs p := by
  induction fs with
  | nil => simp [dlSet, dlSize, Ne.symm h]
  | cons a rest ih =>
    rcases a with ⟨x, m⟩
    rw [dlSet_cons]
    by_cases hx : x = q
    · rw [if_pos hx, dlSize_cons, if_neg (Ne.symm h), dlSize_cons,
        if_neg (by rw [hx]; exact Ne.symm h)]
    · rw [if_neg hx, dlSize_cons, dlSize_cons]
      by_cases hp : x = p
      · rw [if_pos hp, if_pos hp]
      · rw [if_neg hp, if_neg hp]
        exact ih

theorem dlSize_remove_self (fs : DlFs) (q : String) :
    dlSize (dlRemove fs q) q = none := by
  induction fs with
  | nil => rfl
  | cons a rest ih =>
    rcases a with ⟨x, m⟩
    rw [dlRemove_cons]
    by_cases hx : x = q
    · rw [if_pos hx]
      exact ih
    · rw [if_neg hx, dlSize_cons, if_neg hx]
      exact ih

theorem dlSize_remove_ne (fs : DlFs) (p q : String) (h : p ≠ q) :
    dlSize (dlRemove fs q) p = dlSize fs p := by
  induction fs with
  | nil => rfl
  | cons a rest ih =>
    rcases a with ⟨x, m⟩
    rw [dlRemove_cons]
    by_cases hx : x = q
    · rw [if_pos hx, ih, dlSize_cons, if_neg (by rw [hx]; exact Ne.symm h)]
    · rw [if_neg hx, dlSize_cons, dlSize_cons]
      by_cases hp : x = p
      · rw [if_pos hp, if_pos hp]
      · rw [if_neg hp, if_neg hp]
        exact ih

theorem dlSize_rename_src (fs : DlFs) (src dst : String) (h : src ≠ dst) :
    dlSize (dlRename fs src dst) src = none := by
  unfold dlRename
  rw [dlSize_set_ne _ _ _ _ h]
  exact dlSize_remove_self fs src

theorem dlSize_rename_dst (fs : DlFs) (src dst : String) :
    dlSize (dlRename fs src dst) dst = some ((dlSize fs src).getD 0) :=
  dlSize_set_self _ _ _

theorem part_ne_self (out : String) : out ++ ".part" ≠ out := by
  intro h
  have hlen := congrArg String.length h
  have h5 : (".part" : String).length = 5 := rfl
  rw [String.length_append, h5] at hlen
  omega

/-- C4 core: when every attempt fails, the retry loop runs through its whole
budget: the request trace gains exactly the attempt numbers of the remaining
budget, a backoff of min(60, 2^k) seconds follows each failed attempt k, and the
loop ends with the RuntimeError of line 141 naming the basename and the budget. -/
theorem dlLoop_all_fail (out tmp : String) (r0 : Option Nat)
    (net : Nat → NetOutcome) (retries : Nat)
    (hfail : ∀ k, (net k).isSuccess = false) :
    ∀ (remaining attempt : Nat) (st : DlState), ∃ stF,
      dlLoop out tmp r0 net retries attempt remaining st =
        (.error (.runtimeError
          ("Failed after " ++ toString retries ++ " attempts: " ++ Prep.pathName out)),
         stF) ∧
      stF.reqs.map ReqEntry.attempt =
        st.reqs.map ReqEntry.attempt ++ List.range' attempt remaining ∧
      stF.sleeps = st.sleeps ++
        (List.range' attempt remaining).map (fun k => min 60 (2 ^ k)) := by
  intro remaining
  induction remaining with
  | zero =>
    intro attempt st
    exact ⟨st, rfl, by simp, by simp⟩
  | succ r ih =>
    intro attempt st
    have h := hfail attempt
    unfold dlLoop
    dsimp only
    cases hn : net attempt with
    | success n =>
      rw [hn] at h
      simp [NetOutcome.isSuccess] at h
    | failConn =>
      dsimp only
      obtain ⟨stF, h1, h2, h3⟩ := ih (attempt + 1)
        { st with
          reqs := st.reqs ++ [⟨attempt, r0, dlSize st.fs tmp⟩],
          sleeps := st.sleeps ++ [min 60 (2 ^ attempt)] }
      refine ⟨stF, h1, ?_, ?_⟩
      · rw [h2]
        simp [DlState.snap, List.range'_succ]
      · rw [h3]
        simp [DlState.snap, List.range'_succ]
    | failMid n =>
      dsimp only
      obtain ⟨stF, h1, h2, h3⟩ := ih (attempt + 1) _
      refine ⟨stF, h1, ?_, ?_⟩
      · rw [h2]
        simp [DlState.snap, List.range'_succ]
      · rw [h3]
        simp [DlState.snap, List.range'_succ]

/-- C4: a download_streaming call whose destination is absent and whose every
attempt fails makes exactly retries attempts numbered 1..retries, sleeps
min(60, 2^k) seconds after each failed attempt k, makes no further attempt once
the budget is exhausted, and raises RuntimeError naming the destination basename
and the attempt budget. -/
theorem download_retry_bound (out : String) (ow : Bool) (retries : Nat)
    (net : Nat → NetOutcome) (st : DlState)
    (h0 : dlSize st.fs out = none)
    (hfail : ∀ k, (net k).isSuccess = false) :
    ∃ stF,
      download_streaming out ow retries net st =
        (.error (.runtimeError
          ("Failed after " ++ toString retries ++ " attempts: " ++ Prep.pathName out)),
         stF) ∧
      stF.reqs.map ReqEntry.attempt =
        st.reqs.map ReqEntry.attempt ++ List.range' 1 retries ∧
      stF.sleeps = st.sleeps ++
        (List.range' 1 retries).map (fun k => min 60 (2 ^ k)) := by
  unfold download_streaming
  have hex : dlExists st.fs out = false := by simp [dlExists, h0]
  rw [hex]
  simp only [Bool.false_and, Bool.false_eq_true, if_false]
  exact dlLoop_all_fail out (out ++ ".part") _ net retries hfail retries 1 st

/-- Witness for download_retry_bound: a never-succeeding endpoint, three
attempts, sleeps 2, 4, 8 seconds. -/
theorem download_retry_bound_witness :
    dlSize ([] : DlFs) "d/f.nc" = none ∧
    (∀ k, ((fun (_ : Nat) => NetOutcome.failConn) k).isSuccess = false) ∧
    ∃ stF,
      download_streaming "d/f.nc" false 3 (fun (_ : Nat) => NetOutcome.failConn)
          ⟨[], [], [], [], []⟩ =
        (.error (.runtimeError
          ("Failed after " ++ toString 3 ++ " attempts: " ++ Prep.pathName "d/f.nc")),
         stF) ∧
      stF.reqs.map ReqEntry.attempt =
        (⟨[], [], [], [], []⟩ : DlState).reqs.map ReqEntry.attempt ++
          List.range' 1 3 ∧
      stF.sleeps = (⟨[], [], [], [], []⟩ : DlState).sleeps ++
        (List.range' 1 3).map (fun k => min 60 (2 ^ k)) :=
  ⟨rfl, fun _ => rfl,
   download_retry_bound "d/f.nc" false 3 (fun (_ : Nat) => NetOutcome.failConn)
     ⟨[], [], [], [], []⟩ rfl (fun _ => rfl)⟩

/-- C5 counterexample: a call that starts with no sidecar.  Attempt 1 fails
mid-stream leaving 5 bytes in the sidecar; attempt 2 is issued while the sidecar
holds 5 > 0 bytes and overwrite is false, yet carries NO byte-range header
(rangeStart = none), and its received bytes TRUNCATE the sidecar instead of
appending: the remote sends 9 bytes and the final file holds 9, not 5 + 9.  The
resume decision is made once at call entry (lines 115-118), not per attempt. -/
theorem resume_range_not_recomputed_within_call :
    (download_streaming "d/f.nc" false 2
        (fun k => if k = 1 then NetOutcome.failMid 5 else NetOutcome.success 9)
        ⟨[], [], [], [], []⟩).2.reqs =
      [⟨1, none, none⟩, ⟨2, none, some 5⟩] ∧
    (download_streaming "d/f.nc" false 2
        (fun k => if k = 1 then NetOutcome.failMid 5 else NetOutcome.success 9)
        ⟨[], [], [], [], []⟩).2.fs = [("d/f.nc", 9)] := by
  exact ⟨rfl, rfl⟩

/-- C5 amended core: every request issued by one retry loop carries the
rangeStart that was fixed before the loop started. -/
theorem dlLoop_range_fixed (out tmp : String) (r0 : Option Nat)
    (net : Nat → NetOutcome) (retries : Nat) :
    ∀ (remaining attempt : Nat) (st : DlState) (e : ReqEntry),
      e ∈ (dlLoop out tmp r0 net retries attempt remaining st).2.reqs →
      e ∈ st.reqs ∨ e.rangeStart = r0 := by
  intro remaining
  induction remaining with
  | zero =>
    intro attempt st e he
    exact .inl he
  | succ r ih =>
    intro attempt st e he
    unfold dlLoop at he
    dsimp only at he
    rcases hn : net attempt with n | _ | n <;> rw [hn] at he <;> dsimp only at he
    · simp [DlState.snap] at he
      rcases he with he | he
      · exact .inl he
      · right
        rw [he]
    · rcases ih (attempt + 1) _ e he with h | h
      · simp at h
        rcases h with h | h
        · exact .inl h
        · right
          rw [h]
      · exact .inr h
    · rcases ih (attempt + 1) _ e he with h | h
      · simp [DlState.snap] at h
        rcases h with h | h
        · exact .inl h
        · right
          rw [h]
      · exact .inr h

/-- C5 amended: the byte-range decision of download_streaming is taken once per
call from the sidecar size at call entry; every request of the call carries that
same rangeStart, even when earlier failed attempts of the same call have since
left bytes in the sidecar.  (In particular a call that begins with a sidecar of
N > 0 bytes and overwrite false sends bytes=N- and appends on every attempt of
that call, and a separate later call re-reads the sidecar size afresh.) -/
theorem resume_range_fixed_at_call_entry (out : String) (ow : Bool)
    (retries : Nat) (net : Nat → NetOutcome) (st : DlState)
    (hreqs : st.reqs = []) :
    ∀ e ∈ (download_streaming out ow retries net st).2.reqs,
      e.rangeStart =
        if (dlSize st.fs (out ++ ".part")).getD 0 > 0 && !ow then
          some ((dlSize st.fs (out ++ ".part")).getD 0)
        else none := by
  intro e he
  unfold download_streaming at he
  by_cases hex : (dlExists st.fs out && !ow) = true
  · rw [if_pos hex] at he
    rw [hreqs] at he
    simp at he
  · rw [if_neg hex] at he
    dsimp only at he
    rcases dlLoop_range_fixed out (out ++ ".part") _ net retries retries 1 st e he
      with h | h
    · rw [hreqs] at h
      simp at h
    · exact h

/-- Witness for resume_range_fixed_at_call_entry: a call entered with a 5-byte
sidecar and overwrite false; every issued request carries bytes=5-. -/
theorem resume_range_fixed_at_call_entry_witness :
    (⟨[("d/g.nc.part", 5)], [], [], [], []⟩ : DlState).reqs = [] ∧
    ∀ e ∈ (download_streaming "d/g.nc" false 2 (fun (_ : Nat) => NetOutcome.failConn)
        ⟨[("d/g.nc.part", 5)], [], [], [], []⟩).2.reqs,
      e.rangeStart =
        if (dlSize (⟨[("d/g.nc.part", 5)], [], [], [], []⟩ : DlState).fs
              ("d/g.nc" ++ ".part")).getD 0 > 0 && !false then
          some ((dlSize (⟨[("d/g.nc.part", 5)], [], [], [], []⟩ : DlState).fs
              ("d/g.nc" ++ ".part")).getD 0)
        else none :=
  ⟨rfl,
   resume_range_fixed_at_call_entry "d/g.nc" false 2 (fun (_ : Nat) => NetOutcome.failConn)
     ⟨[("d/g.nc.part", 5)], [], [], [], []⟩ rfl⟩

/-- C6 core: loop invariant of download_streaming.  While the loop runs, writes
touch only the sidecar; the destination appears exactly at the final atomic
rename, which simultaneously removes the sidecar.  Hence in every observable
state either the destination is absent or the sidecar is gone; an error exit
leaves the destination absent; a success exit leaves the destination present and
the sidecar gone. -/
theorem dlLoop_dest_only_by_rename (out tmp : String) (hne : tmp ≠ out)
    (r0 : Option Nat) (net : Nat → NetOutcome) (retries : Nat) :
    ∀ (remaining attempt : Nat) (st : DlState),
      dlSize st.fs out = none →
      (∀ s ∈ st.snaps, dlSize s out = none ∨ dlSize s tmp = none) →
      (∀ s ∈ (dlLoop out tmp r0 net retries attempt remaining st).2.snaps,
          dlSize s out = none ∨ dlSize s tmp = none) ∧
      (∀ e, (dlLoop out tmp r0 net retries attempt remaining st).1 = .error e →
          dlSize (dlLoop out tmp r0 net retries attempt remaining st).2.fs out = none) ∧
      ((dlLoop out tmp r0 net retries attempt remaining st).1 = .ok () →
          dlSize (dlLoop out tmp r0 net retries attempt remaining st).2.fs tmp = none ∧
          dlExists (dlLoop out tmp r0 net retries attempt remaining st).2.fs out
            = true) := by
  intro remaining
  induction remaining with
  | zero =>
    intro attempt st h0 hsnaps
    unfold dlLoop
    exact ⟨hsnaps, fun e _ => h0, fun h => nomatch h⟩
  | succ r ih =>
    intro attempt st h0 hsnaps
    unfold dlLoop
    dsimp only
    rcases hn : net attempt with n | _ | n <;> dsimp only
    · refine ⟨?_, ?_, ?_⟩
      · intro s hsmem
        simp only [DlState.snap, List.mem_append, List.mem_singleton] at hsmem
        rcases hsmem with (h | h) | h
        · exact hsnaps s h
        · left
          rw [h, dlSize_set_ne _ _ _ _ (Ne.symm hne)]
          exact h0
        · right
          rw [h]
          exact dlSize_rename_src _ _ _ hne
      · intro e he
        exact nomatch he
      · intro _
        dsimp only [DlState.snap]
        refine ⟨dlSize_rename_src _ _ _ hne, ?_⟩
        unfold dlExists
        rw [dlSize_rename_dst]
        rfl
    · exact ih (attempt + 1) _ h0 hsnaps
    · apply ih (attempt + 1)
      · dsimp only [DlState.snap]
        rw [dlSize_set_ne _ _ _ _ (Ne.symm hne)]
        exact h0
      · intro s hsmem
        simp only [DlState.snap, List.mem_append, List.mem_singleton] at hsmem
        rcases hsmem with h | h
        · exact hsnaps s h
        · left
          rw [h, dlSize_set_ne _ _ _ _ (Ne.symm hne)]
          exact h0

/-- C6: when the destination of a download_streaming call is initially absent,
the destination is only ever created by the single sidecar rename on success: in
every observable state of the call either the destination does not exist or the
sidecar does not (so the destination never coexists with the sidecar, in a
partial state or otherwise); after an error exit (retry exhaustion) the
destination still does not exist; after a success exit the sidecar is gone and
the destination exists. -/
theorem destination_only_created_by_rename (out : String) (ow : Bool)
    (retries : Nat) (net : Nat → NetOutcome) (st : DlState)
    (h0 : dlSize st.fs out = none) (hs : st.snaps = []) :
    (∀ s ∈ (download_streaming out ow retries net st).2.snaps,
        dlSize s out = none ∨ dlSize s (out ++ ".part") = none) ∧
    (∀ e, (download_streaming out ow retries net st).1 = .error e →
        dlSize (download_streaming out ow retries net st).2.fs out = none) ∧
    ((download_streaming out ow retries net st).1 = .ok () →
        dlSize (download_streaming out ow retries net st).2.fs (out ++ ".part")
          = none ∧
        dlExists (download_streaming out ow retries net st).2.fs out = true) := by
  have hex : dlExists st.fs out = false := by simp [dlExists, h0]
  unfold download_streaming
  rw [hex]
  simp only [Bool.false_and, Bool.false_eq_true, if_false]
  refine dlLoop_dest_only_by_rename out (out ++ ".part") (part_ne_self out) _ net
    retries retries 1 st h0 ?_
  rw [hs]
  intro s hsmem
  cases hsmem

/-- Witness for destination_only_created_by_rename: one failed then one
successful attempt; the invariant holds on the three observable states. -/
theorem destination_only_created_by_rename_witness :
    dlSize ([] : DlFs) "d/f.nc" = none ∧
    (⟨[], [], [], [], []⟩ : DlState).snaps = [] ∧
    ((∀ s ∈ (download_streaming "d/f.nc" false 2
          (fun k => if k = 1 then NetOutcome.failMid 3 else NetOutcome.success 7)
          ⟨[], [], [], [], []⟩).2.snaps,
        dlSize s "d/f.nc" = none ∨ dlSize s ("d/f.nc" ++ ".part") = none) ∧
     (∀ e, (download_streaming "d/f.nc" false 2
          (fun k => if k = 1 then NetOutcome.failMid 3 else NetOutcome.success 7)
          ⟨[], [], [], [], []⟩).1 = .error e →
        dlSize (download_streaming "d/f.nc" false 2
          (fun k => if k = 1 then NetOutcome.failMid 3 else NetOutcome.success 7)
          ⟨[], [], [], [], []⟩).2.fs "d/f.nc" = none) ∧
     ((download_streaming "d/f.nc" false 2
          (fun k => if k = 1 then NetOutcome.failMid 3 else NetOutcome.success 7)
          ⟨[], [], [], [], []⟩).1 = .ok () →
        dlSize (download_streaming "d/f.nc" false 2
          (fun k => if k = 1 then NetOutcome.failMid 3 else NetOutcome.success 7)
          ⟨[], [], [], [], []⟩).2.fs ("d/f.nc" ++ ".part") = none ∧
        dlExists (download_streaming "d/f.nc" false 2
          (fun k => if k = 1 then NetOutcome.failMid 3 else NetOutcome.success 7)
          ⟨[], [], [], [], []⟩).2.fs "d/f.nc" = true)) :=
  ⟨rfl, rfl,
   destination_only_created_by_rename "d/f.nc" false 2
     (fun k => if k = 1 then NetOutcome.failMid 3 else NetOutcome.success 7)
     ⟨[], [], [], [], []⟩ rfl rfl⟩

/-- C9 counterexample: the Acquisition Orchestrator re-run over a catalog with
one ZIP dataset whose extracted contents already fully exist on disk still
performs a new network fetch of the ZIP URL — download_and_unzip (lines 16-38)
contains no existence check, so the claimed skip rule does not exist for ZIPs. -/
theorem zip_refetched_when_already_complete :
    (mainAcquire "raw" [("coastline_hi_op", "https://z/coastline.shp.zip")] []
        "dem_hi_pacioos" "https://b" [] false false false
        (fun (_ : String) => some ((10 : Nat), [("coastline.shp", (5 : Nat))]))
        (fun (_ : String) (_ : Nat) => NetOutcome.failConn)
        (none : Option (String → Nat))
        ⟨[("raw/coastline_hi_op/coastline.shp", 5)], [], [], [], []⟩).2.fetches =
      ["https://z/coastline.shp.zip"] := by
  rfl

/-- C9 amended: re-running the Acquisition Orchestrator skips per each
sub-component's own rule where one exists — a GitHub-folder file already present
at its destination (overwrite false) triggers no fetch and no state change, and
a DEM dataset whose GeoTIFF already exists (overwrite false) triggers no fetch —
but ZIP datasets have no skip rule: download_and_unzip fetches its URL
unconditionally on every run. -/
theorem acquire_skip_rules_amended :
    (∀ (dataset_id url raw_dir : String) (zipnet : ZipNet) (st : DlState),
        (download_and_unzip dataset_id url raw_dir zipnet st).2.fetches =
          st.fetches ++ [url]) ∧
    (∀ (name dlurl : String) (size : Nat) (dest : String) (st : DlState),
        dlExists st.fs (dest ++ "/" ++ name) = true →
        ghHandleEntry false dest st (.file name dlurl size) = st) ∧
    (∀ (ncss_base out_dir : String) (retries : Nat)
        (net : String → Nat → NetOutcome) (gdal : Option (String → Nat))
        (ds : String) (st : DlState),
        dlExists st.fs (out_dir ++ "/" ++ ds ++ ".tif") = true →
        (pacioosStep ncss_base out_dir false false retries net gdal ds st).2.fetches
          = st.fetches) := by
  refine ⟨?_, ?_, ?_⟩
  · intro dataset_id url raw_dir zipnet st
    unfold download_and_unzip
    dsimp only
    cases hz : zipnet url with
    | none => rfl
    | some val =>
      rcases val with ⟨zs, entries⟩
      rfl
  · intro name dlurl size dest st hex
    unfold ghHandleEntry
    dsimp only
    rw [hex]
    rfl
  · intro ncss_base out_dir retries net gdal ds st hex
    unfold pacioosStep
    dsimp only
    rw [hex]
    rfl

/-- Witness for acquire_skip_rules_amended: a concrete ZIP fetch that always
happens, a concrete existing GitHub file that is skipped untouched, and a
concrete existing DEM GeoTIFF whose dataset performs no fetch. -/
theorem acquire_skip_rules_amended_witness :
    ((download_and_unzip "ds" "https://u" "raw"
        (fun (_ : String) => (none : Option (Nat × List (String × Nat))))
        ⟨[], [], [], [], []⟩).2.fetches =
      (⟨[], [], [], [], []⟩ : DlState).fetches ++ ["https://u"]) ∧
    (dlExists (⟨[("raw/g/a.tif", 3)], [], [], [], []⟩ : DlState).fs
        ("raw/g" ++ "/" ++ "a.tif") = true ∧
     ghHandleEntry false "raw/g" ⟨[("raw/g/a.tif", 3)], [], [], [], []⟩
        (.file "a.tif" "https://dl" 3) =
       (⟨[("raw/g/a.tif", 3)], [], [], [], []⟩ : DlState)) ∧
    (dlExists (⟨[("o/d.tif", 9)], [], [], [], []⟩ : DlState).fs
        ("o" ++ "/" ++ "d" ++ ".tif") = true ∧
     (pacioosStep "https://b" "o" false false 8
        (fun (_ : String) (_ : Nat) => NetOutcome.failConn)
        (none : Option (String → Nat)) "d"
        ⟨[("o/d.tif", 9)], [], [], [], []⟩).2.fetches =
       (⟨[("o/d.tif", 9)], [], [], [], []⟩ : DlState).fetches) :=
  ⟨acquire_skip_rules_amended.1 "ds" "https://u" "raw"
     (fun (_ : String) => (none : Option (Nat × List (String × Nat))))
     ⟨[], [], [], [], []⟩,
   ⟨rfl, acquire_skip_rules_amended.2.1 "a.tif" "https://dl" 3 "raw/g"
      ⟨[("raw/g/a.tif", 3)], [], [], [], []⟩ rfl⟩,
   ⟨rfl, acquire_skip_rules_amended.2.2 "https://b" "o" 8
      (fun (_ : String) (_ : Nat) => NetOutcome.failConn)
      (none : Option (String → Nat)) "d" ⟨[("o/d.tif", 9)], [], [], [], []⟩ rfl⟩⟩

/-- Every successful prepare_source_inputs call returns the prepared_outputs
manifest it was given: both return points of the Python function (lines 342 and
484) return the prepared_outputs dict unchanged. -/
theorem prepare_ok_manifest (si po : List (String × String)) (ts : String)
    (epsg : Nat) (ow : Bool) (st st1 : GisState) (m : List (String × String))
    (h : prepare_source_inputs si po ts epsg ow st = (.ok m, st1)) : m = po := by
  unfold prepare_source_inputs at h
  split at h
  · injection h with h1 h2
    injection h1 with h1
    exact h1.symm
  · split at h
    · simp at h
    · injection h with h1 h2
      injection h1 with h1
      exact h1.symm

/-- C1: after any first run that returned a manifest and after which every
prepared output exists on disk, a second run with identical inputs and no
overwrite returns the very same manifest and the very same state: the missing
set computed up front is empty, so the second run returns before any engine
call and appends nothing to the operation trace. -/
theorem prepare_second_run_noop (si po : List (String × String)) (ts : String)
    (epsg : Nat) (st st1 : GisState) (m1 : List (String × String))
    (h1 : prepare_source_inputs si po ts epsg false st = (.ok m1, st1))
    (hall : ∀ kp ∈ po, prepared_exists kp.1 kp.2 st1.fs = true) :
    prepare_source_inputs si po ts epsg false st1 = (.ok m1, st1) := by
  have hm : m1 = po := prepare_ok_manifest si po ts epsg false st st1 m1 h1
  have hfilter : po.filter (fun kp => !(prepared_exists kp.1 kp.2 st1.fs)) = [] := by
    rw [List.filter_eq_nil_iff]
    intro a ha
    simp [hall a ha]
  unfold prepare_source_inputs
  rw [hfilter, hm]
  rfl

/-- Witness for prepare_second_run_noop: one prepared output, already present in
its subfolder-wrapped location; the first run is a fast no-op and the second run
returns the identical manifest and state. -/
theorem prepare_second_run_noop_witness :
    (prepare_source_inputs [] [("dem", "prepared/dem.tif")] "tmp" 32604 false
        ⟨["prepared/dem/dem.tif"], [], []⟩ =
      (.ok [("dem", "prepared/dem.tif")],
       (⟨["prepared/dem/dem.tif"], [], []⟩ : GisState))) ∧
    (∀ kp ∈ [("dem", "prepared/dem.tif")],
        prepared_exists kp.1 kp.2 ["prepared/dem/dem.tif"] = true) ∧
    prepare_source_inputs [] [("dem", "prepared/dem.tif")] "tmp" 32604 false
        ⟨["prepared/dem/dem.tif"], [], []⟩ =
      (.ok [("dem", "prepared/dem.tif")],
       (⟨["prepared/dem/dem.tif"], [], []⟩ : GisState)) :=
  ⟨rfl, by decide,
   prepare_second_run_noop [] [("dem", "prepared/dem.tif")] "tmp" 32604
     ⟨["prepared/dem/dem.tif"], [], []⟩ ⟨["prepared/dem/dem.tif"], [], []⟩
     [("dem", "prepared/dem.tif")] rfl (by decide)⟩
